import Mathlib

/-!
Verification of the Analysis Orchestration & Notification core of the
Calorily API server (aiohttp + Motor/MongoDB, `src/calorily`).

Shallow embedding conventions:
* MongoDB collections are Lean lists of document structures; `insert_one`
  appends and stamps a strictly increasing `oid` (the surrogate for the
  driver-generated ObjectId `_id`, which increases with insertion order
  within one server process).
* `datetime` timestamps are `Nat`.
* Nutrient numbers (Python floats) are carried opaquely as `Int`; no claim
  computes with them.
* Coroutines become pure functions; the outcome of the external analyzer
  call and of fallible store inserts are explicit parameters.
* The WebSocket registry dict `ws_connections : Dict[str, set]` is an
  association list keyed by user id; connections are `Nat` handles and a
  send outcome function `Conn → Bool` stands for `ws.send_json` either
  succeeding or raising.
-/

namespace Calorily

/-- Nutrient record produced by the analyzer (models.Ingredient). -/
structure Ingredient where
  name : String
  weight : Int
  carbs : Int
  proteins : Int
  fats : Int
deriving DecidableEq, Repr

/-- Document of the `meals` collection. -/
structure MealDoc where
  meal_id : String
  user_id : String
  b64_img : String
  created_at : Nat
deriving DecidableEq, Repr

/-- Document of the `analysis` collection; `oid` is the ObjectId surrogate
assigned at insertion (strictly increasing with insertion order). -/
structure AnalysisDoc where
  oid : Nat
  meal_id : String
  meal_name : String
  ingredients : List Ingredient
  timestamp : Nat
deriving DecidableEq, Repr

/-- Document of the `feedback` collection. -/
structure FeedbackDoc where
  meal_id : String
  feedback : String
  timestamp : Nat
deriving DecidableEq, Repr

/-- The MongoDB database state used by MealService. -/
structure Store where
  meals : List MealDoc
  analysis : List AnalysisDoc
  feedback : List FeedbackDoc
  nextOid : Nat
deriving DecidableEq, Repr

/-- A feedback entry as exposed in MealData.feedback_history. -/
structure FeedbackEntry where
  feedback : String
  timestamp : Nat
deriving DecidableEq, Repr

/-- The latest-analysis summary embedded in MealData. -/
structure AnalysisSummary where
  meal_name : String
  ingredients : List Ingredient
  timestamp : Nat
deriving DecidableEq, Repr

/-- The composite meal view assembled by fetch_meal (models.MealData). -/
structure MealData where
  meal_id : String
  user_id : String
  b64_img : String
  created_at : Nat
  latest_analysis : Option AnalysisSummary
  feedback_history : List FeedbackEntry
deriving DecidableEq, Repr

/- ------------------------------------------------------------------ -/
/- Connection registry (service.py lines 35-66)                        -/
/- ------------------------------------------------------------------ -/

/-- A live WebSocket connection handle. -/
abbrev Conn := Nat

/-- The in-memory `ws_connections` dict: user id to its set of live
connections (the list never holds duplicates when built by the
operations below). -/
abbrev Registry := List (String × List Conn)

/-- Dict lookup `self.ws_connections[user_id]` (None when absent). -/
def regLookup (r : Registry) (u : String) : Option (List Conn) :=
  (r.find? (fun p => p.1 == u)).map (fun p => p.2)

/-- The set of live connections of a user; empty when the user is absent. -/
def connsOf (r : Registry) (u : String) : List Conn :=
  (regLookup r u).getD []

/-- register_ws_connection: create the entry if missing, then add the
connection to the user's set. -/
def register_ws_connection (r : Registry) (u : String) (c : Conn) : Registry :=
  match regLookup r u with
  | none => r ++ [(u, [c])]
  | some cs =>
      r.map (fun p => if p.1 == u then (u, if c ∈ cs then cs else cs ++ [c]) else p)

/-- unregister_ws_connection: discard the connection from the user's set
and delete the user's entry entirely once the set is empty. -/
def unregister_ws_connection (r : Registry) (u : String) (c : Conn) : Registry :=
  match regLookup r u with
  | none => r
  | some cs =>
      if cs.filter (fun x => x != c) = [] then r.filter (fun p => p.1 != u)
      else r.map (fun p => if p.1 == u then (u, cs.filter (fun x => x != c)) else p)

/-- Result of one notify_user call: the updated registry, the connections
to which a send was attempted, and the dead connections collected. The
Python coroutine returns None; the two lists instrument the sends it
performs so that delivery claims can be stated. The function is total:
per-connection send failures are caught, never re-raised. -/
structure NotifyOut where
  registry : Registry
  attempted : List Conn
  dead : List Conn
deriving DecidableEq, Repr

/-- notify_user: send to every connection of the user, collect the
connections whose send raised, then unregister each dead connection.
`sendOk c = false` models `ws.send_json` raising for connection c. -/
def notify_user (r : Registry) (u : String) (sendOk : Conn → Bool) : NotifyOut :=
  match regLookup r u with
  | none => ⟨r, [], []⟩
  | some cs =>
      ⟨(cs.filter (fun c => !(sendOk c))).foldl
          (fun acc c => unregister_ws_connection acc u c) r,
       cs,
       cs.filter (fun c => !(sendOk c))⟩

/-- One registry operation, as driven by the WebSocket handler and by
notification sends (the function argument of notify gives each
connection's send outcome). -/
inductive RegOp where
  | reg (u : String) (c : Conn)
  | unreg (u : String) (c : Conn)
  | notify (u : String) (sendOk : Conn → Bool)

/-- Apply one registry operation. -/
def regStep (r : Registry) : RegOp → Registry
  | .reg u c => register_ws_connection r u c
  | .unreg u c => unregister_ws_connection r u c
  | .notify u f => (notify_user r u f).registry

/-- Run a sequence of registry operations from the initial empty dict. -/
def applyOps (ops : List RegOp) : Registry :=
  ops.foldl regStep []

/-- Well-formedness of the registry: every user entry present in the dict
holds a non-empty connection set. -/
def regWF (r : Registry) : Prop := ∀ p ∈ r, p.2 ≠ []

/- Helper lemmas about lookup after the update and delete operations. -/

theorem regLookup_map_update (r : Registry) (u : String) (cs cs' : List Conn)
    (h : regLookup r u = some cs) :
    regLookup (r.map (fun p => if p.1 == u then (u, cs') else p)) u = some cs' := by
  induction r with
  | nil => simp [regLookup] at h
  | cons hd tl ih =>
      rw [List.map_cons]
      by_cases hk : hd.1 == u
      · rw [if_pos hk]
        simp [regLookup, List.find?_cons]
      · rw [if_neg hk]
        have h' : regLookup tl u = some cs := by
          simpa [regLookup, List.find?_cons, hk] using h
        simpa [regLookup, List.find?_cons, hk] using ih h'

theorem regLookup_filter_out (r : Registry) (u : String) :
    regLookup (r.filter (fun p => p.1 != u)) u = none := by
  have hf : List.find? (fun p => p.1 == u) (r.filter (fun p => p.1 != u)) = none := by
    rw [List.find?_eq_none]
    intro p hp
    have h2 : (p.1 != u) = true := (List.mem_filter.mp hp).2
    simpa using h2
  simp [regLookup, hf]

theorem connsOf_eq_of_lookup (r : Registry) (u : String) (cs : List Conn)
    (h : regLookup r u = some cs) : connsOf r u = cs := by
  simp [connsOf, h]

/-- After unregistering connection c for user u, c is no longer among u's
connections. -/
theorem unreg_removes (r : Registry) (u : String) (c : Conn) :
    c ∉ connsOf (unregister_ws_connection r u c) u := by
  cases h : regLookup r u with
  | none => simp [unregister_ws_connection, h, connsOf]
  | some cs =>
      by_cases hnil : cs.filter (fun x => x != c) = []
      · simp only [unregister_ws_connection, h, hnil, if_pos rfl]
        simp [connsOf, regLookup_filter_out]
      · simp only [unregister_ws_connection, h, if_neg hnil]
        rw [connsOf_eq_of_lookup _ _ _ (regLookup_map_update r u cs _ h)]
        intro hc
        have := (List.mem_filter.mp hc).2
        simp at this

/-- Unregistering any connection never re-introduces an absent one. -/
theorem unreg_preserves_absent (r : Registry) (u : String) (c c' : Conn)
    (h : c ∉ connsOf r u) :
    c ∉ connsOf (unregister_ws_connection r u c') u := by
  cases hl : regLookup r u with
  | none => simpa [unregister_ws_connection, hl] using h
  | some cs =>
      rw [connsOf_eq_of_lookup _ _ _ hl] at h
      by_cases hnil : cs.filter (fun x => x != c') = []
      · simp only [unregister_ws_connection, hl, hnil, if_pos rfl]
        simp [connsOf, regLookup_filter_out]
      · simp only [unregister_ws_connection, hl, if_neg hnil]
        rw [connsOf_eq_of_lookup _ _ _ (regLookup_map_update r u cs _ hl)]
        intro hc
        exact h (List.mem_filter.mp hc).1

theorem foldl_unreg_preserves_absent (l : List Conn) (r : Registry)
    (u : String) (c : Conn) (h : c ∉ connsOf r u) :
    c ∉ connsOf (l.foldl (fun acc x => unregister_ws_connection acc u x) r) u := by
  induction l generalizing r with
  | nil => exact h
  | cons x xs ih => exact ih _ (unreg_preserves_absent r u c x h)

theorem foldl_unreg_removes (l : List Conn) (r : Registry)
    (u : String) (c : Conn) (hc : c ∈ l) :
    c ∉ connsOf (l.foldl (fun acc x => unregister_ws_connection acc u x) r) u := by
  induction l generalizing r with
  | nil => cases hc
  | cons x xs ih =>
      rcases List.mem_cons.mp hc with hcx | hcs
      · subst hcx
        exact foldl_unreg_preserves_absent xs _ u c (unreg_removes r u c)
      · exact ih _ hcs

/-- C7: Notify for a user with zero live connections is a no-op — nothing
is delivered or queued, no send is attempted, the registry is unchanged,
and the call returns normally (the embedding is a total function, so it
cannot throw). -/
theorem c7_notify_no_connections (r : Registry) (u : String)
    (sendOk : Conn → Bool) (h : connsOf r u = []) :
    notify_user r u sendOk = ⟨r, [], []⟩ := by
  cases hl : regLookup r u with
  | none => simp [notify_user, hl]
  | some cs =>
      have hcs : cs = [] := by
        rw [connsOf_eq_of_lookup _ _ _ hl] at h
        exact h
      subst hcs
      simp [notify_user, hl]

/-- Concrete instantiation of c7_notify_no_connections: user bob has no
live connections, so notify_user leaves everything alone. -/
theorem c7_notify_no_connections_witness :
    connsOf [("alice", [5])] "bob" = [] ∧
    notify_user [("alice", [5])] "bob" (fun _ => true) = ⟨[("alice", [5])], [], []⟩ :=
  ⟨by decide, c7_notify_no_connections [("alice", [5])] "bob" (fun _ => true) (by decide)⟩

/-- C6: a connection whose send fails during notify_user is collected as
dead and pruned from the user's registry entry; the call still attempts
delivery to every registered connection of the user (and returns
normally, being total), and a subsequent notify_user for the same user no
longer attempts delivery to the pruned connection. -/
theorem c6_dead_connection_pruned (r : Registry) (u : String)
    (sendOk1 sendOk2 : Conn → Bool) (c : Conn)
    (hc : c ∈ connsOf r u) (hfail : sendOk1 c = false) :
    c ∈ (notify_user r u sendOk1).dead ∧
    (notify_user r u sendOk1).attempted = connsOf r u ∧
    c ∉ connsOf (notify_user r u sendOk1).registry u ∧
    c ∉ (notify_user (notify_user r u sendOk1).registry u sendOk2).attempted := by
  cases hl : regLookup r u with
  | none =>
      exfalso
      rw [show connsOf r u = [] by simp [connsOf, hl]] at hc
      cases hc
  | some cs =>
      have hconns : connsOf r u = cs := connsOf_eq_of_lookup _ _ _ hl
      have hnu : notify_user r u sendOk1 =
          ⟨(cs.filter (fun x => !(sendOk1 x))).foldl
              (fun acc x => unregister_ws_connection acc u x) r,
           cs, cs.filter (fun x => !(sendOk1 x))⟩ := by
        simp [notify_user, hl]
      have hcd : c ∈ cs.filter (fun x => !(sendOk1 x)) := by
        refine List.mem_filter.mpr ⟨hconns ▸ hc, ?_⟩
        simp [hfail]
      have habsent :
          c ∉ connsOf ((cs.filter (fun x => !(sendOk1 x))).foldl
              (fun acc x => unregister_ws_connection acc u x) r) u :=
        foldl_unreg_removes _ r u c hcd
      refine ⟨?_, ?_, ?_, ?_⟩
      · rw [hnu]; exact hcd
      · rw [hnu, hconns]
      · rw [hnu]; exact habsent
      · rw [hnu]
        cases hl2 : regLookup ((cs.filter (fun x => !(sendOk1 x))).foldl
            (fun acc x => unregister_ws_connection acc u x) r) u with
        | none => simp [notify_user, hl2]
        | some cs2 =>
            simp only [notify_user, hl2]
            rw [connsOf_eq_of_lookup _ _ _ hl2] at habsent
            exact habsent

/-- Concrete instantiation of c6_dead_connection_pruned: connection 1 of
user u fails its send, is pruned, and is not attempted on the next call. -/
theorem c6_dead_connection_pruned_witness :
    1 ∈ connsOf [("u", [1, 2])] "u" ∧ (fun x => decide (x ≠ 1)) 1 = false ∧
    (1 ∈ (notify_user [("u", [1, 2])] "u" (fun x => decide (x ≠ 1))).dead ∧
     (notify_user [("u", [1, 2])] "u" (fun x => decide (x ≠ 1))).attempted =
        connsOf [("u", [1, 2])] "u" ∧
     1 ∉ connsOf (notify_user [("u", [1, 2])] "u" (fun x => decide (x ≠ 1))).registry "u" ∧
     1 ∉ (notify_user (notify_user [("u", [1, 2])] "u"
            (fun x => decide (x ≠ 1))).registry "u" (fun _ => true)).attempted) :=
  ⟨by decide, by decide,
    c6_dead_connection_pruned [("u", [1, 2])] "u" (fun x => decide (x ≠ 1))
      (fun _ => true) 1 (by decide) (by decide)⟩

/-- Well-formedness is preserved by register_ws_connection. -/
theorem regWF_register (r : Registry) (u : String) (c : Conn) (h : regWF r) :
    regWF (register_ws_connection r u c) := by
  cases hl : regLookup r u with
  | none =>
      simp only [register_ws_connection, hl]
      intro p hp
      rcases List.mem_append.mp hp with h1 | h2
      · exact h p h1
      · rw [List.mem_singleton.mp h2]
        simp
  | some cs =>
      simp only [register_ws_connection, hl]
      intro p hp
      rcases List.mem_map.mp hp with ⟨q, hq, rfl⟩
      by_cases hk : q.1 == u
      · rw [if_pos hk]
        by_cases hcm : c ∈ cs
        · simp only [if_pos hcm]
          exact List.ne_nil_of_mem hcm
        · simp only [if_neg hcm]
          simp
      · rw [if_neg hk]
        exact h q hq

/-- Well-formedness is preserved by unregister_ws_connection. -/
theorem regWF_unregister (r : Registry) (u : String) (c : Conn) (h : regWF r) :
    regWF (unregister_ws_connection r u c) := by
  cases hl : regLookup r u with
  | none => simpa [unregister_ws_connection, hl] using h
  | some cs =>
      by_cases hnil : cs.filter (fun x => x != c) = []
      · simp only [unregister_ws_connection, hl, hnil, if_pos rfl]
        intro p hp
        exact h p (List.mem_filter.mp hp).1
      · simp only [unregister_ws_connection, hl, if_neg hnil]
        intro p hp
        rcases List.mem_map.mp hp with ⟨q, hq, rfl⟩
        by_cases hk : q.1 == u
        · rw [if_pos hk]
          exact hnil
        · rw [if_neg hk]
          exact h q hq

theorem regWF_foldl_unreg (l : List Conn) (r : Registry) (u : String)
    (h : regWF r) :
    regWF (l.foldl (fun acc c => unregister_ws_connection acc u c) r) := by
  induction l generalizing r with
  | nil => exact h
  | cons x xs ih => exact ih _ (regWF_unregister r u x h)

/-- Well-formedness is preserved by notify_user's dead-connection pruning. -/
theorem regWF_notify (r : Registry) (u : String) (sendOk : Conn → Bool)
    (h : regWF r) : regWF (notify_user r u sendOk).registry := by
  cases hl : regLookup r u with
  | none => simpa [notify_user, hl] using h
  | some cs =>
      simp only [notify_user, hl]
      exact regWF_foldl_unreg _ r u h

theorem regWF_step (r : Registry) (op : RegOp) (h : regWF r) :
    regWF (regStep r op) := by
  cases op with
  | reg u c => exact regWF_register r u c h
  | unreg u c => exact regWF_unregister r u c h
  | notify u f => exact regWF_notify r u f h

/-- C9: after any sequence of register, unregister, and notify operations
starting from the empty registry, every user id present in the dict maps
to a non-empty connection set (unregister deletes an entry that becomes
empty, and notify's pruning goes through the same deletion). -/
theorem c9_registry_nonempty_invariant (ops : List RegOp) :
    regWF (applyOps ops) := by
  have general : ∀ (l : List RegOp) (r : Registry), regWF r →
      regWF (l.foldl regStep r) := by
    intro l
    induction l with
    | nil => intro r h; exact h
    | cons op t ih => intro r h; exact ih _ (regWF_step r op h)
  exact general ops [] (by intro p hp; cases hp)

/-- Concrete instantiation of c9_registry_nonempty_invariant on a sample
operation sequence that empties one user's set and prunes a dead
connection of another. -/
theorem c9_registry_nonempty_invariant_witness :
    regWF (applyOps [RegOp.reg "u1" 1, RegOp.reg "u2" 2, RegOp.reg "u2" 3,
                     RegOp.unreg "u1" 1, RegOp.notify "u2" (fun x => decide (x ≠ 2))]) :=
  c9_registry_nonempty_invariant
    [RegOp.reg "u1" 1, RegOp.reg "u2" 2, RegOp.reg "u2" 3,
     RegOp.unreg "u1" 1, RegOp.notify "u2" (fun x => decide (x ≠ 2))]

/- ------------------------------------------------------------------ -/
/- Store operations (service.py lines 80-172, 259-315)                 -/
/- ------------------------------------------------------------------ -/

/-- find_one on the meals collection by meal_id. -/
def mealFindOne (s : Store) (mid : String) : Option MealDoc :=
  s.meals.find? (fun m => m.meal_id == mid)

/-- find_one on the analysis collection with sort timestamp descending:
the document with the greatest timestamp (first inserted wins among equal
timestamps; the claims below only use distinct timestamps). -/
def latestAnalysisOf (s : Store) (mid : String) : Option AnalysisDoc :=
  (s.analysis.filter (fun a => a.meal_id == mid)).foldl
    (fun best d =>
      match best with
      | none => some d
      | some b => if b.timestamp < d.timestamp then some d else some b) none

/-- The aggregation accumulator max of whole documents: BSON document
comparison starts at the first field, which is the driver-generated _id,
so max of ROOT selects the document with the greatest ObjectId, i.e. the
most recently inserted one. -/
def maxByOid (l : List AnalysisDoc) : Option AnalysisDoc :=
  l.foldl
    (fun best d =>
      match best with
      | none => some d
      | some b => if b.oid < d.oid then some d else some b) none

/-- Insertion step for sorting feedback documents by timestamp
descending. -/
def insertTsDesc (d : FeedbackDoc) : List FeedbackDoc → List FeedbackDoc
  | [] => [d]
  | x :: xs => if x.timestamp < d.timestamp then d :: x :: xs else x :: insertTsDesc d xs

/-- The feedback find with sort timestamp descending (newest first). -/
def sortTsDesc (l : List FeedbackDoc) : List FeedbackDoc :=
  l.foldr insertTsDesc []

/-- create_meal: insert_one under the unique meal_id index, returning None
when the insert raises; `storeFailure` models any non-duplicate exception
thrown by the store during the insert. -/
def create_meal (s : Store) (storeFailure : Bool) (mid uid img : String)
    (now : Nat) : Store × Option String :=
  if storeFailure || s.meals.any (fun m => m.meal_id == mid) then (s, none)
  else ({ s with meals := s.meals ++ [⟨mid, uid, img, now⟩] }, some mid)

/-- add_analysis: verify the meal exists, then insert the analysis
document (stamping the next ObjectId surrogate). -/
def add_analysis (s : Store) (mid name : String) (ings : List Ingredient)
    (ts : Nat) : Store × Bool :=
  if (mealFindOne s mid).isSome then
    ({ s with
        analysis := s.analysis ++ [⟨s.nextOid, mid, name, ings, ts⟩],
        nextOid := s.nextOid + 1 }, true)
  else (s, false)

/-- add_feedback: verify the meal exists, then insert the feedback
document. -/
def add_feedback (s : Store) (mid fb : String) (now : Nat) : Store × Bool :=
  if (mealFindOne s mid).isSome then
    ({ s with feedback := s.feedback ++ [⟨mid, fb, now⟩] }, true)
  else (s, false)

/-- fetch_meal: assemble the MealData view — meal document, latest
analysis by timestamp, and the feedback history sorted newest first. -/
def fetch_meal (s : Store) (mid : String) : Option MealData :=
  match mealFindOne s mid with
  | none => none
  | some m =>
      some ⟨m.meal_id, m.user_id, m.b64_img, m.created_at,
        (latestAnalysisOf s mid).map (fun a => ⟨a.meal_name, a.ingredients, a.timestamp⟩),
        (sortTsDesc (s.feedback.filter (fun f => f.meal_id == mid))).map
          (fun f => ⟨f.feedback, f.timestamp⟩)⟩

/-- The analysis record shape returned by the single-meal query and by
the catch-up query (meal id, display name, ingredients, timestamp). -/
structure AnalysisView where
  meal_id : String
  meal_name : String
  ingredients : List Ingredient
  timestamp : Nat
deriving DecidableEq, Repr

/-- get_meal_analysis: the latest analysis for one meal, selected by
find_one with sort timestamp descending (the GET /meals/meal_id path). -/
def get_meal_analysis (s : Store) (mid : String) : Option AnalysisView :=
  (latestAnalysisOf s mid).map (fun a => ⟨a.meal_id, a.meal_name, a.ingredients, a.timestamp⟩)

/-- fetch_analyses_since: list the user's meal ids, match analyses of
those meals with timestamp strictly greater than `since`, then group by
meal_id keeping the accumulator max of ROOT per group — i.e. the document
with the greatest _id (insertion order), not the greatest timestamp. The
iteration below runs over the user's meal ids, which are duplicate-free
under the unique meal_id index; meals whose group is empty are dropped,
which matches the aggregation emitting one group per matched meal id. -/
def fetch_analyses_since (s : Store) (uid : String) (since : Nat) :
    List AnalysisView :=
  let mealIds := (s.meals.filter (fun m => m.user_id == uid)).map (fun m => m.meal_id)
  if mealIds.isEmpty then []
  else
    let matched := s.analysis.filter
      (fun a => mealIds.contains a.meal_id && decide (since < a.timestamp))
    mealIds.filterMap (fun mid =>
      (maxByOid (matched.filter (fun a => a.meal_id == mid))).map
        (fun a => ⟨mid, a.meal_name, a.ingredients, a.timestamp⟩))

/- ------------------------------------------------------------------ -/
/- HTTP handlers (handlers.py) and the analysis job (service.py 174-257) -/
/- ------------------------------------------------------------------ -/

/-- An HTTP response: status code and the message of its JSON body. -/
structure Resp where
  status : Nat
  body : String
deriving DecidableEq, Repr

/-- A handler's observable outcome: the response, the store afterwards,
and the meal-data arguments of the request_analysis dispatches it made. -/
structure HandlerOut where
  resp : Resp
  store : Store
  dispatched : List MealData
deriving DecidableEq, Repr

/-- submit_meal handler: create the meal, then fire the analysis task.
The handler treats a falsy create_meal result (None, or the empty string
id echoed back) as "meal already exists". -/
def submit_meal (s : Store) (storeFailure : Bool) (uid mid img : String)
    (now : Nat) : HandlerOut :=
  if img = "" then ⟨⟨400, "b64_img is required"⟩, s, []⟩
  else
    let r := create_meal s storeFailure mid uid img now
    if r.2.getD "" = "" then ⟨⟨409, "meal already exists"⟩, r.1, []⟩
    else ⟨⟨200, "processing"⟩, r.1, [⟨mid, uid, img, now, none, []⟩]⟩

/-- submit_feedback handler: validate inputs, fetch the meal, append the
feedback, optimistically insert the new entry at the head of the fetched
history, and dispatch a re-analysis with that context. -/
def submit_feedback (s : Store) (mid fb : String) (now : Nat) : HandlerOut :=
  if mid = "" then ⟨⟨400, "meal_id is required"⟩, s, []⟩
  else if fb = "" then ⟨⟨400, "feedback is required"⟩, s, []⟩
  else
    match fetch_meal s mid with
    | none => ⟨⟨404, "meal not found"⟩, s, []⟩
    | some md =>
        let r := add_feedback s mid fb now
        if r.2 = false then ⟨⟨500, "failed to add feedback"⟩, r.1, []⟩
        else ⟨⟨200, "processing"⟩, r.1,
          [{ md with feedback_history := ⟨fb, now⟩ :: md.feedback_history }]⟩

/-- The feedback context selection of gpt_api.analyze_meal: when the
history is non-empty it takes the last element of feedback_history (the
index -1 access). -/
def latest_feedback (md : MealData) : Option String :=
  if md.feedback_history.isEmpty then none
  else md.feedback_history.getLast?.map (fun e => e.feedback)

/-- A push message sent through notify_user. -/
inductive WsMessage where
  | analysisComplete (meal_id meal_name : String) (ingredients : List Ingredient)
      (timestamp : Nat)
  | analysisFailed (meal_id error_msg : String)
deriving DecidableEq, Repr

/-- One observable action of the analysis job: a notify_user call or an
add_analysis persistence attempt (with its success flag). -/
inductive Event where
  | notified (user_id : String) (message : WsMessage)
  | persisted (meal_id : String) (stored : Bool)
deriving DecidableEq, Repr

/-- The outcome of the awaited analyze_meal call inside the job: the
None return, a result carrying an error key, a well-formed result, or an
exception escaping the try body. -/
inductive AnalyzerOutcome where
  | noResponse
  | errorResult (msg : String)
  | success (meal_name : String) (ingredients : List Ingredient)
  | raises (msg : String)
deriving DecidableEq, Repr

/-- Whether the outcome takes one of the three failure branches of the
job. -/
def AnalyzerOutcome.isFailure : AnalyzerOutcome → Bool
  | .success _ _ => false
  | _ => true

/-- The error string the job puts into the analysis_failed event on each
failure branch. -/
def AnalyzerOutcome.failureReason : AnalyzerOutcome → String
  | .noResponse => "GPT API returned no response"
  | .errorResult e => e
  | .raises _ => "Internal server error during analysis"
  | .success _ _ => ""

/-- analyze_task as a trace: each entry is an observable action paired
with the store state right after it. `now` is the utcnow timestamp taken
after the analyzer returns. On success the job first sends the
analysis_complete notification, then persists via add_analysis; on every
failure branch (None result, error result, or an exception caught by the
job's outer handler) it sends a single analysis_failed notification and
touches the store not at all. -/
def analyze_task (s : Store) (md : MealData) (o : AnalyzerOutcome)
    (now : Nat) : List (Event × Store) :=
  match o with
  | .noResponse =>
      [(.notified md.user_id (.analysisFailed md.meal_id "GPT API returned no response"), s)]
  | .errorResult e =>
      [(.notified md.user_id (.analysisFailed md.meal_id e), s)]
  | .success name ings =>
      [(.notified md.user_id (.analysisComplete md.meal_id name ings now), s),
       (.persisted md.meal_id (add_analysis s md.meal_id name ings now).2,
        (add_analysis s md.meal_id name ings now).1)]
  | .raises _ =>
      [(.notified md.user_id (.analysisFailed md.meal_id "Internal server error during analysis"), s)]

/- ------------------------------------------------------------------ -/
/- Claims                                                              -/
/- ------------------------------------------------------------------ -/

/-- C5: submit_feedback on a meal id that does not exist answers 404
"meal not found", leaves the store untouched (no FeedbackEntry appended),
and dispatches no analysis job. -/
theorem c5_feedback_notfound (s : Store) (mid fb : String) (now : Nat)
    (hmid : mid ≠ "") (hfb : fb ≠ "") (hnone : mealFindOne s mid = none) :
    submit_feedback s mid fb now = ⟨⟨404, "meal not found"⟩, s, []⟩ := by
  simp [submit_feedback, hmid, hfb, fetch_meal, hnone]

/-- Concrete instantiation of c5_feedback_notfound on the empty store. -/
theorem c5_feedback_notfound_witness :
    ("m1" ≠ "" ∧ "too salty" ≠ "" ∧ mealFindOne ⟨[], [], [], 0⟩ "m1" = none) ∧
    submit_feedback ⟨[], [], [], 0⟩ "m1" "too salty" 7 =
      ⟨⟨404, "meal not found"⟩, ⟨[], [], [], 0⟩, []⟩ :=
  ⟨⟨by decide, by decide, by decide⟩,
    c5_feedback_notfound ⟨[], [], [], 0⟩ "m1" "too salty" 7
      (by decide) (by decide) (by decide)⟩

/-- C10: a store exception during the meal insert makes create_meal
return None and the handler answer 409 "meal already exists" — byte for
byte the same response a genuine duplicate meal id produces, so the two
are indistinguishable at the public interface. -/
theorem c10_store_failure_conflict (s s2 : Store) (uid mid img : String)
    (now : Nat) (himg : img ≠ "")
    (hdup : s2.meals.any (fun m => m.meal_id == mid) = true) :
    create_meal s true mid uid img now = (s, none) ∧
    submit_meal s true uid mid img now = ⟨⟨409, "meal already exists"⟩, s, []⟩ ∧
    (submit_meal s2 false uid mid img now).resp = ⟨409, "meal already exists"⟩ := by
  refine ⟨by simp [create_meal], ?_, ?_⟩
  · simp [submit_meal, create_meal, himg]
  · simp [submit_meal, create_meal, himg, hdup]

/-- Concrete instantiation of c10_store_failure_conflict: a failing
insert on the empty store and a duplicate id both yield the 409 conflict
response. -/
theorem c10_store_failure_conflict_witness :
    ("img" ≠ "" ∧
      (Store.mk [⟨"m", "u", "i", 0⟩] [] [] 0).meals.any (fun m => m.meal_id == "m") = true) ∧
    (create_meal ⟨[], [], [], 0⟩ true "m" "u" "img" 3 = (⟨[], [], [], 0⟩, none) ∧
     submit_meal ⟨[], [], [], 0⟩ true "u" "m" "img" 3 =
        ⟨⟨409, "meal already exists"⟩, ⟨[], [], [], 0⟩, []⟩ ∧
     (submit_meal ⟨[⟨"m", "u", "i", 0⟩], [], [], 0⟩ false "u" "m" "img" 3).resp =
        ⟨409, "meal already exists"⟩) :=
  ⟨⟨by decide, by decide⟩,
    c10_store_failure_conflict ⟨[], [], [], 0⟩ ⟨[⟨"m", "u", "i", 0⟩], [], [], 0⟩
      "u" "m" "img" 3 (by decide) (by decide)⟩

/-- Store with one meal m1 of user u1 and no analyses yet. -/
def sC1 : Store := ⟨[⟨"m1", "u1", "img1", 0⟩], [], [], 0⟩

/-- Meal data of m1 as dispatched by submit_meal. -/
def mdC1 : MealData := ⟨"m1", "u1", "img1", 0, none, []⟩

/-- C1 counterexample: on the successful job for m1, the very first
action is delivering analysis_complete, and at that instant the
latest-analysis read for m1 still returns nothing — a client that polls
on receiving the push can observe "not found", refuting
write-before-notify. -/
theorem c1_notify_before_persist_cex :
    (analyze_task sC1 mdC1 (AnalyzerOutcome.success "Rice" []) 10).head? =
      some (Event.notified "u1" (WsMessage.analysisComplete "m1" "Rice" [] 10), sC1) ∧
    get_meal_analysis sC1 "m1" = none := by decide

/-- C1 amended: the successful job performs exactly two actions, in this
order: first the analysis_complete notification (at which point the store
is still the pre-job store), then the add_analysis persistence of the
notified result, with the same timestamp that was notified. -/
theorem c1_notify_precedes_persist (s : Store) (md : MealData) (name : String)
    (ings : List Ingredient) (now : Nat) :
    (analyze_task s md (AnalyzerOutcome.success name ings) now).length = 2 ∧
    (analyze_task s md (AnalyzerOutcome.success name ings) now)[0]? =
      some (Event.notified md.user_id
              (WsMessage.analysisComplete md.meal_id name ings now), s) ∧
    (analyze_task s md (AnalyzerOutcome.success name ings) now)[1]? =
      some (Event.persisted md.meal_id (add_analysis s md.meal_id name ings now).2,
            (add_analysis s md.meal_id name ings now).1) :=
  ⟨rfl, rfl, rfl⟩

/-- C8: on every failure branch of the job — analyzer returned None, the
result carried an error key, or an exception escaped the try body — the
job performs exactly one action: an analysis_failed notification to the
owning user carrying the branch's reason string, and the store is left
untouched (no AnalysisResult persisted, no uncaught termination). -/
theorem c8_failure_notifies_no_persist (s : Store) (md : MealData)
    (o : AnalyzerOutcome) (now : Nat) (h : o.isFailure = true) :
    analyze_task s md o now =
      [(Event.notified md.user_id
          (WsMessage.analysisFailed md.meal_id o.failureReason), s)] := by
  cases o with
  | noResponse => rfl
  | errorResult e => rfl
  | success n i => simp [AnalyzerOutcome.isFailure] at h
  | raises e => rfl

/-- Concrete instantiation of c8_failure_notifies_no_persist on an error
result. -/
theorem c8_failure_notifies_no_persist_witness :
    (AnalyzerOutcome.errorResult "not a food image").isFailure = true ∧
    analyze_task ⟨[], [], [], 0⟩ ⟨"m9", "u9", "i", 0, none, []⟩
        (AnalyzerOutcome.errorResult "not a food image") 3 =
      [(Event.notified "u9" (WsMessage.analysisFailed "m9"
          (AnalyzerOutcome.errorResult "not a food image").failureReason),
        ⟨[], [], [], 0⟩)] :=
  ⟨by decide,
    c8_failure_notifies_no_persist ⟨[], [], [], 0⟩ ⟨"m9", "u9", "i", 0, none, []⟩
      (AnalyzerOutcome.errorResult "not a food image") 3 (by decide)⟩

/-- Store with meal m2 of user u2 and one stored feedback entry from
timestamp 1. -/
def sC2 : Store :=
  (add_feedback ((create_meal ⟨[], [], [], 0⟩ false "m2" "u2" "img2" 0).1)
    "m2" "old advice" 1).1

/-- C2: submitting fresh feedback on a meal that already has an older
entry dispatches a context whose history is newest-first, yet the
analyzer's selection (index -1) picks the oldest entry "old advice"
rather than the just-submitted "new advice" with the greatest
timestamp. -/
theorem c2_oldest_feedback_used :
    (submit_feedback sC2 "m2" "new advice" 5).dispatched =
      [⟨"m2", "u2", "img2", 0, none, [⟨"new advice", 5⟩, ⟨"old advice", 1⟩]⟩] ∧
    latest_feedback
        ⟨"m2", "u2", "img2", 0, none, [⟨"new advice", 5⟩, ⟨"old advice", 1⟩]⟩ =
      some "old advice" ∧
    (([⟨"new advice", 5⟩, ⟨"old advice", 1⟩] : List FeedbackEntry).all
        (fun e => e.timestamp ≤ 5)) = true := by decide

/-- Store with meal m3 of user u3 and two analyses: Pasta at timestamp 9
inserted first, Salad at timestamp 4 inserted second. -/
def sC3 : Store :=
  (add_analysis (add_analysis ((create_meal ⟨[], [], [], 0⟩ false "m3" "u3" "img3" 0).1)
      "m3" "Pasta" [] 9).1 "m3" "Salad" [] 4).1

/-- C3: the catch-up query returns the most recently inserted analysis
(Salad, timestamp 4) for m3, even though an analysis with a strictly
greater timestamp (9) is stored — the returned entry is not the
maximum-timestamp analysis the claim demands. -/
theorem c3_sync_not_max_timestamp :
    fetch_analyses_since sC3 "u3" 0 = [⟨"m3", "Salad", [], 4⟩] ∧
    (sC3.analysis.any (fun a => a.meal_id == "m3" && decide (4 < a.timestamp))) = true := by
  decide

/-- Store with meal m4 of user u4 and two analyses: Stew at timestamp 7
inserted first, Soup at timestamp 2 inserted second. -/
def sC4 : Store :=
  (add_analysis (add_analysis ((create_meal ⟨[], [], [], 0⟩ false "m4" "u4" "img4" 0).1)
      "m4" "Stew" [] 7).1 "m4" "Soup" [] 2).1

/-- C4: on the same store, the single-meal latest read returns the
maximum-timestamp analysis (Stew, 7) while the catch-up aggregation
returns the most recently inserted one (Soup, 2) — the two paths do not
compute "latest" identically. -/
theorem c4_paths_disagree :
    get_meal_analysis sC4 "m4" = some ⟨"m4", "Stew", [], 7⟩ ∧
    fetch_analyses_since sC4 "u4" 0 = [⟨"m4", "Soup", [], 2⟩] ∧
    fetch_analyses_since sC4 "u4" 0 ≠ [⟨"m4", "Stew", [], 7⟩] := by
  decide

end Calorily
